import Mathlib

/-!
Verification of the thermometer layout engine and rasterization pipeline of
the animal-shelter donation-thermometer service.

The numeric core of the program (src/thermometer.rs, src/main.rs,
src/color_constants.rs) works on IEEE doubles; the embedding below models
that arithmetic exactly over `ℚ`.  Every constant written in the source as a
decimal literal (1.2, 0.35, …) is exact in `ℚ`; the Rust `as u32` cast
(truncation towards zero, saturating) and `f64::round` (round half away from
zero) are modelled explicitly.  Template fields that the source stores as
2-decimal formatted strings are modelled by the exact rational values passed
to the formatter.
-/

namespace Thermo

/-- A fundraising team, from `struct Team` in src/main.rs. -/
structure Team where
  name : String
  image_url : Option String
  total_raised : ℚ

/-- The donation configuration, from `struct ThermometerConfig` in src/main.rs. -/
structure ThermometerConfig where
  organization_name : String
  title : String
  goal : ℚ
  teams : List Team
  last_updated : String

/-- Sum of all team totals: `config.teams.iter().map(|t| t.total_raised).sum()`
(src/thermometer.rs line 54). -/
def totalRaised (config : ThermometerConfig) : ℚ :=
  (config.teams.map (fun t => t.total_raised)).sum

/-- The progress percentage, src/thermometer.rs lines 55-59:
`if config.goal > 0.0 { ((total_raised / config.goal) * 100.0).min(100.0) } else { 0.0 }`. -/
def progressPercent (config : ThermometerConfig) : ℚ :=
  if 0 < config.goal then min ((totalRaised config / config.goal) * 100) 100 else 0

/-- Rust's saturating `as u32` cast applied to a (real-valued) quantity:
truncation towards zero, clamped to `[0, 2^32-1]`. -/
def rustAsU32 (q : ℚ) : ℕ :=
  (min ((2 : ℤ) ^ 32 - 1) (max 0 ⌊q⌋)).toNat

/-- Rust's `f64::round`: round half away from zero. -/
def rustRound (q : ℚ) : ℤ :=
  if 0 ≤ q then ⌊q + 1 / 2⌋ else ⌈q - 1 / 2⌉

/-- Canvas height, src/thermometer.rs line 62: `(width as f64 * 1.2) as u32`. -/
def canvasHeight (width : ℕ) : ℕ :=
  rustAsU32 ((width : ℚ) * 1.2)

/-- Bounding-box width, src/thermometer.rs line 63: `width as f64 * 0.35`. -/
def thermometerWidth (width : ℕ) : ℚ := (width : ℚ) * 0.35

/-- Bounding-box height, src/thermometer.rs line 64: `height as f64 * 0.6`. -/
def thermometerHeight (width : ℕ) : ℚ := (canvasHeight width : ℚ) * 0.6

/-- Bounding-box x, src/thermometer.rs line 65: `width as f64 * 0.1`. -/
def thermometerX (width : ℕ) : ℚ := (width : ℚ) * 0.1

/-- Bounding-box y, src/thermometer.rs line 66: `height as f64 * 0.15`. -/
def thermometerY (width : ℕ) : ℚ := (canvasHeight width : ℚ) * 0.15

/-- One percentage marker, from `struct PercentageMarker` in src/thermometer.rs
(numeric values before 2-decimal string formatting). -/
structure PercentageMarker where
  line_x1 : ℚ
  y : ℚ
  line_x2 : ℚ
  text_x : ℚ
  text_y : ℚ
  font_size : ℚ
  percentage : ℤ

/-- The geometry record: the numeric values filled into `ThermometerTemplate`
in src/thermometer.rs lines 112-145 (before 2-decimal string formatting). -/
structure GeometryRecord where
  width : ℕ
  height : ℕ
  title_x : ℚ
  title_y : ℚ
  title_font_size : ℚ
  tube_x : ℚ
  tube_y : ℚ
  tube_width : ℚ
  tube_height : ℚ
  fill_x : ℚ
  fill_y : ℚ
  fill_width : ℚ
  fill_height : ℚ
  bulb_center_x : ℚ
  bulb_center_y : ℚ
  bulb_radius : ℚ
  bulb_fill_radius : ℚ
  percentage_markers : List PercentageMarker
  text_x : ℚ
  achieved_y : ℚ
  achieved_amount : ℚ
  achieved_label_y : ℚ
  goal_y : ℚ
  goal_amount : ℚ
  goal_label_y : ℚ
  percent_y : ℚ
  progress_percent : ℚ
  percent_label_y : ℚ
  amount_font_size : ℚ
  label_font_size : ℚ
  percent_font_size : ℚ
  percent_label_font_size : ℚ

/-- Bulb radius, src/thermometer.rs line 69: `thermometer_width * 0.4`. -/
def bulb_radius (width : ℕ) : ℚ := thermometerWidth width * 0.4

/-- Tube width, src/thermometer.rs line 70: `thermometer_width * 0.35`. -/
def tube_width (width : ℕ) : ℚ := thermometerWidth width * 0.35

/-- Tube height, src/thermometer.rs line 71: `thermometer_height - bulb_radius`. -/
def tube_height (width : ℕ) : ℚ := thermometerHeight width - bulb_radius width

/-- Tube x, src/thermometer.rs line 72:
`thermometer_x + (thermometer_width - tube_width) / 2.0`. -/
def tube_x (width : ℕ) : ℚ :=
  thermometerX width + (thermometerWidth width - tube_width width) / 2

/-- Tube y, src/thermometer.rs line 73: `thermometer_y`. -/
def tube_y (width : ℕ) : ℚ := thermometerY width

/-- Bulb center x, src/thermometer.rs line 74:
`thermometer_x + thermometer_width / 2.0`. -/
def bulb_center_x (width : ℕ) : ℚ :=
  thermometerX width + thermometerWidth width / 2

/-- Bulb center y, src/thermometer.rs line 75:
`tube_y + tube_height + bulb_radius`. -/
def bulb_center_y (width : ℕ) : ℚ :=
  tube_y width + tube_height width + bulb_radius width

/-- Fill height, src/thermometer.rs line 78:
`(tube_height * progress_percent / 100.0).max(0.0)`. -/
def fill_height (config : ThermometerConfig) (width : ℕ) : ℚ :=
  max (tube_height width * progressPercent config / 100) 0

/-- Fill y, src/thermometer.rs line 79: `tube_y + tube_height - fill_height`. -/
def fill_y (config : ThermometerConfig) (width : ℕ) : ℚ :=
  tube_y width + tube_height width - fill_height config width

/-- Marker tick length, src/thermometer.rs line 90: `thermometer_width * 0.25`. -/
def marker_length (width : ℕ) : ℚ := thermometerWidth width * 0.25

/-- Marker font size, src/thermometer.rs line 91: `width as f64 * 0.02`. -/
def font_size (width : ℕ) : ℚ := (width : ℚ) * 0.02

/-- The six percentage markers, src/thermometer.rs lines 89-110: for each
`p` in `[100, 80, 60, 40, 20, 0]`, `y = tube_y + tube_height * (1.0 - p/100.0)`,
`marker_x = tube_x - marker_length - 5.0`, `text_x = marker_x - 5.0`,
`text_y = y + font_size * 0.35`. -/
def percentage_markers_of (width : ℕ) : List PercentageMarker :=
  ([100, 80, 60, 40, 20, 0] : List ℤ).map (fun (p : ℤ) =>
    { line_x1 := tube_x width - marker_length width - 5
      y := tube_y width + tube_height width * (1 - (p : ℚ) / 100)
      line_x2 := tube_x width - 5
      text_x := tube_x width - marker_length width - 5 - 5
      text_y := tube_y width + tube_height width * (1 - (p : ℚ) / 100) +
        font_size width * 0.35
      font_size := font_size width
      percentage := p })

/-- The geometry computation of `generate_thermometer_svg`
(src/thermometer.rs lines 53-145), producing the numeric template record of
lines 112-145; the serialization of this record through the askama template
is modelled separately by `renderWithFallback`. -/
def generate_thermometer_svg (config : ThermometerConfig) (width : ℕ) :
    GeometryRecord :=
  { width := width
    height := canvasHeight width
    title_x := (width : ℚ) / 2
    title_y := (canvasHeight width : ℚ) * 0.1
    title_font_size := (width : ℚ) * 0.035
    tube_x := tube_x width
    tube_y := tube_y width
    tube_width := tube_width width
    tube_height := tube_height width
    fill_x := tube_x width + 2.5
    fill_y := fill_y config width
    fill_width := tube_width width - 5
    fill_height := fill_height config width
    bulb_center_x := bulb_center_x width
    bulb_center_y := bulb_center_y width
    bulb_radius := bulb_radius width
    bulb_fill_radius := bulb_radius width - 3
    percentage_markers := percentage_markers_of width
    text_x := (width : ℚ) * 0.55
    achieved_y := (canvasHeight width : ℚ) * 0.35
    achieved_amount := totalRaised config
    achieved_label_y := (canvasHeight width : ℚ) * 0.35 + (width : ℚ) * 0.03
    goal_y := (canvasHeight width : ℚ) * 0.55
    goal_amount := config.goal
    goal_label_y := (canvasHeight width : ℚ) * 0.55 + (width : ℚ) * 0.03
    percent_y := (canvasHeight width : ℚ) * 0.75
    progress_percent := progressPercent config
    percent_label_y := (canvasHeight width : ℚ) * 0.75 + (width : ℚ) * 0.025
    amount_font_size := (width : ℚ) * 0.06
    label_font_size := (width : ℚ) * 0.025
    percent_font_size := (width : ℚ) * 0.09
    percent_label_font_size := (width : ℚ) * 0.022 }

/-- The home-page display percentage, src/main.rs lines 242-247:
the raw clamped percent rounded to two decimal places with `f64::round`. -/
def homeProgressPercent (config : ThermometerConfig) : ℚ :=
  if 0 < config.goal then
    let raw_percent := min ((totalRaised config / config.goal) * 100) 100
    (rustRound (raw_percent * 100) : ℚ) / 100
  else 0

/-- The fixed placeholder scene, src/thermometer.rs line 149. -/
def errorPlaceholderSvg : String :=
  "<svg><text>Error rendering thermometer</text></svg>"

/-- The fallback of `generate_thermometer_svg`, src/thermometer.rs lines
147-150: `template.render().unwrap_or_else(|e| ...placeholder...)`.  The
askama rendering outcome is the `Except` argument. -/
def renderWithFallback (rendered : Except String String) : String :=
  match rendered with
  | Except.ok s => s
  | Except.error _ => errorPlaceholderSvg

/-- Pixel dimensions computed by `svg_to_png`, src/thermometer.rs lines
170-172: `(size.width() * scale) as u32` and `(size.height() * scale) as u32`
for the parsed scene's intrinsic size. -/
def svgToPngDims (intrinsic_width intrinsic_height scale : ℚ) : ℕ × ℕ :=
  (rustAsU32 (intrinsic_width * scale), rustAsU32 (intrinsic_height * scale))

/-- The two color themes selected by the routes in src/main.rs. -/
inductive Theme where
  | light
  | dark

/-- A static color palette, fields as in src/color_constants.rs. -/
structure Palette where
  background : String
  title_text : String
  text_primary : String
  text_secondary : String
  tube_fill : String
  tube_stroke : String
  fill_color_1 : String
  fill_color_2 : String
  achieved_text : String
  marker_stroke : String
  marker_text : String

/-- The light palette, src/color_constants.rs `pub mod light`. -/
def lightPalette : Palette :=
  { background := "white"
    title_text := "#4A4A4A"
    text_primary := "#4A4A4A"
    text_secondary := "#888888"
    tube_fill := "white"
    tube_stroke := "#6B6B6B"
    fill_color_1 := "#DC143C"
    fill_color_2 := "#FF6B6B"
    achieved_text := "#DC143C"
    marker_stroke := "#888"
    marker_text := "#888" }

/-- The dark palette, src/color_constants.rs `pub mod dark`. -/
def darkPalette : Palette :=
  { background := "#1a1a1a"
    title_text := "#E0E0E0"
    text_primary := "#E0E0E0"
    text_secondary := "#AAAAAA"
    tube_fill := "#2a2a2a"
    tube_stroke := "#9B9B9B"
    fill_color_1 := "#FF4444"
    fill_color_2 := "#FF7777"
    achieved_text := "#FF6B6B"
    marker_stroke := "#AAAAAA"
    marker_text := "#AAAAAA" }

/-- Palette selected by a theme (light/dark constants of src/color_constants.rs). -/
def palette : Theme → Palette
  | Theme.light => lightPalette
  | Theme.dark => darkPalette

/-- Modelled from the spec: the Scene Composer serializes the geometry record
together with the theme's static palette ("The `Theme` selects the static
palette only; it does not affect geometry").  The theme-parameterized SVG
template (templates/thermometer.svg, invoked from the routes in src/main.rs)
is not among the source files; the scene is modelled as the pair of the
geometry record computed by `generate_thermometer_svg` and the palette. -/
def composeScene (theme : Theme) (config : ThermometerConfig) (width : ℕ) :
    GeometryRecord × Palette :=
  (generate_thermometer_svg config width, palette theme)

/-! Concrete configurations used to instantiate the theorems below. -/

/-- A configuration with the default goal of 10000 and no teams. -/
def cfgEmpty : ThermometerConfig :=
  { organization_name := "Community Animal Rescue Effort"
    title := "Animal Shelter Donation Drive"
    goal := 10000
    teams := []
    last_updated := "" }

/-- The configuration of concrete scenario 1: goal 10000, team totals
2500, 3200.5 and 1800. -/
def cfgScenario1 : ThermometerConfig :=
  { organization_name := "Community Animal Rescue Effort"
    title := "Animal Shelter Donation Drive"
    goal := 10000
    teams :=
      [ { name := "Team Alpha", image_url := none, total_raised := 2500 }
      , { name := "Team Beta", image_url := none, total_raised := 3200.5 }
      , { name := "Team Gamma", image_url := none, total_raised := 1800 } ]
    last_updated := "" }

/-- A configuration whose single team raised half of the goal. -/
def cfgHalf : ThermometerConfig :=
  { organization_name := "o", title := "t", goal := 10
    teams := [ { name := "A", image_url := none, total_raised := 5 } ]
    last_updated := "" }

/-- A configuration whose single team raised more than the goal. -/
def cfgFull : ThermometerConfig :=
  { organization_name := "o", title := "t", goal := 10
    teams := [ { name := "A", image_url := none, total_raised := 12 } ]
    last_updated := "" }

/-- A configuration with a positive goal and a negative team total. -/
def cfgNegative : ThermometerConfig :=
  { organization_name := "o", title := "t", goal := 1
    teams := [ { name := "A", image_url := none, total_raised := -1 } ]
    last_updated := "" }

/-- A configuration with goal 100 and a team total of -50. -/
def cfgNegGoal100 : ThermometerConfig :=
  { organization_name := "o", title := "t", goal := 100
    teams := [ { name := "A", image_url := none, total_raised := -50 } ]
    last_updated := "" }

/-- A configuration with goal 0 and a negative team total. -/
def cfgNegZeroGoal : ThermometerConfig :=
  { organization_name := "o", title := "t", goal := 0
    teams := [ { name := "A", image_url := none, total_raised := -5 } ]
    last_updated := "" }

/-! Helper lemmas. -/

/-- If every team total is non-negative, so is the raised sum. -/
lemma totalRaised_nonneg (config : ThermometerConfig)
    (h : ∀ t ∈ config.teams, 0 ≤ t.total_raised) : 0 ≤ totalRaised config := by
  unfold totalRaised
  apply List.sum_nonneg
  intro q hq
  simp only [List.mem_map] at hq
  obtain ⟨t, ht, rfl⟩ := hq
  exact h t ht

/-- The progress percent never exceeds 100. -/
lemma progressPercent_le_100 (config : ThermometerConfig) :
    progressPercent config ≤ 100 := by
  unfold progressPercent
  split
  · exact min_le_right _ _
  · norm_num

/-- On `[0, 2^32-1]` the saturating cast is the floor. -/
lemma rustAsU32_of_bounds (q : ℚ) (h0 : 0 ≤ q) (h1 : q ≤ 2 ^ 32 - 1) :
    (rustAsU32 q : ℤ) = ⌊q⌋ := by
  unfold rustAsU32
  have hf0 : (0 : ℤ) ≤ ⌊q⌋ := Int.floor_nonneg.mpr h0
  have hcast : ((2 ^ 32 - 1 : ℤ) : ℚ) = 2 ^ 32 - 1 := by push_cast; ring
  have hf1 : ⌊q⌋ ≤ 2 ^ 32 - 1 := by
    have h2 := Int.floor_le_floor (α := ℚ) h1
    rwa [← hcast, Int.floor_intCast] at h2
  rw [max_eq_right hf0, min_eq_right hf1, Int.toNat_of_nonneg hf0]

/-- For widths up to 3·10⁹ the canvas height is the floor of `width * 1.2`. -/
lemma canvasHeight_int (w : ℕ) (hb : w ≤ 3 * 10 ^ 9) :
    (canvasHeight w : ℤ) = ⌊(w : ℚ) * 1.2⌋ := by
  unfold canvasHeight
  apply rustAsU32_of_bounds
  · positivity
  · have hw : (w : ℚ) ≤ 3 * 10 ^ 9 := by exact_mod_cast hb
    nlinarith

/-- For widths divisible by 5 (up to 3·10⁹) the canvas height is exactly
`width * 1.2`. -/
lemma canvasHeight_exact (w : ℕ) (h5 : 5 ∣ w) (hb : w ≤ 3 * 10 ^ 9) :
    ((canvasHeight w : ℕ) : ℚ) = (w : ℚ) * 1.2 := by
  obtain ⟨m, rfl⟩ := h5
  have h2 : (canvasHeight (5 * m) : ℤ) = ⌊((5 * m : ℕ) : ℚ) * 1.2⌋ :=
    canvasHeight_int _ hb
  have h1 : ((5 * m : ℕ) : ℚ) * 1.2 = ((6 * m : ℕ) : ℚ) := by push_cast; ring
  rw [h1, Int.floor_natCast] at h2
  have h3 : ((canvasHeight (5 * m) : ℕ) : ℚ) = ((6 * m : ℕ) : ℚ) := by
    exact_mod_cast h2
  rw [h3, ← h1]

/-- The truncated canvas height is at least the width (for u32 widths). -/
lemma canvasHeight_ge_self (w : ℕ) (hw2 : w ≤ 2 ^ 32 - 1) : w ≤ canvasHeight w := by
  unfold canvasHeight rustAsU32
  have h0 : ((w : ℕ) : ℚ) ≤ (w : ℚ) * 1.2 := by
    nlinarith [Nat.cast_nonneg (α := ℚ) w]
  have h1 : (w : ℤ) ≤ ⌊(w : ℚ) * 1.2⌋ := by
    calc (w : ℤ) = ⌊((w : ℕ) : ℚ)⌋ := by rw [Int.floor_natCast]
    _ ≤ ⌊(w : ℚ) * 1.2⌋ := Int.floor_le_floor h0
  have h2 : (w : ℤ) ≤ min ((2 : ℤ) ^ 32 - 1) (max 0 ⌊(w : ℚ) * 1.2⌋) := by
    refine le_min ?_ (le_trans h1 (le_max_right _ _))
    have : (w : ℤ) ≤ (2 : ℤ) ^ 32 - 1 := by
      have := hw2
      omega
    exact this
  have h3 := Int.toNat_le_toNat h2
  simpa using h3

/-- The tube height is non-negative for u32 widths. -/
lemma tube_height_nonneg (w : ℕ) (hw2 : w ≤ 2 ^ 32 - 1) : 0 ≤ tube_height w := by
  have h := canvasHeight_ge_self w hw2
  have h' : (w : ℚ) ≤ (canvasHeight w : ℚ) := by exact_mod_cast h
  have h0 : (0 : ℚ) ≤ (w : ℚ) := Nat.cast_nonneg w
  unfold tube_height thermometerHeight bulb_radius thermometerWidth
  nlinarith

/-! Claim theorems. -/

/-- C1: the progress computation sums the team amounts and yields
`min(sum/goal*100, 100)` when the goal is positive and exactly 0 otherwise;
with a positive goal and non-negative amounts it lies in [0, 100], and it is
exactly 100 whenever the sum reaches the goal. -/
theorem C1_progress_contract (config : ThermometerConfig) :
    (0 < config.goal →
      progressPercent config = min ((totalRaised config / config.goal) * 100) 100) ∧
    (config.goal ≤ 0 → progressPercent config = 0) ∧
    (0 < config.goal → (∀ t ∈ config.teams, 0 ≤ t.total_raised) →
      0 ≤ progressPercent config ∧ progressPercent config ≤ 100) ∧
    (0 < config.goal → config.goal ≤ totalRaised config →
      progressPercent config = 100) := by
  refine ⟨fun hg => ?_, fun hg => ?_, fun hg hts => ⟨?_, progressPercent_le_100 config⟩,
    fun hg hsum => ?_⟩
  · simp [progressPercent, hg]
  · simp [progressPercent, not_lt.mpr hg]
  · have hs := totalRaised_nonneg config hts
    simp only [progressPercent, if_pos hg]
    refine le_min (by positivity) (by norm_num)
  · simp only [progressPercent, if_pos hg]
    refine min_eq_right ?_
    have h1 : (1 : ℚ) ≤ totalRaised config / config.goal :=
      (one_le_div hg).mpr hsum
    linarith

/-- Witness for C1 at concrete configurations. -/
theorem C1_progress_contract_witness :
    progressPercent cfgHalf = min ((totalRaised cfgHalf / cfgHalf.goal) * 100) 100 ∧
    progressPercent cfgNegZeroGoal = 0 ∧
    (0 ≤ progressPercent cfgHalf ∧ progressPercent cfgHalf ≤ 100) ∧
    progressPercent cfgFull = 100 := by
  refine ⟨(C1_progress_contract cfgHalf).1 (by norm_num [cfgHalf]),
    (C1_progress_contract cfgNegZeroGoal).2.1 (by norm_num [cfgNegZeroGoal]),
    (C1_progress_contract cfgHalf).2.2.1 (by norm_num [cfgHalf]) ?_,
    (C1_progress_contract cfgFull).2.2.2 (by norm_num [cfgFull])
      (by norm_num [cfgFull, totalRaised])⟩
  intro t ht
  simp only [cfgHalf, List.mem_singleton] at ht
  subst ht
  norm_num

/-- C4 fails as stated: a negative team sum with a positive goal yields a
negative completion ratio, outside [0, 1]. -/
theorem C4_ratio_counterexample :
    progressPercent cfgNegative = -100 ∧ progressPercent cfgNegative / 100 < 0 := by
  norm_num [progressPercent, totalRaised, cfgNegative]

/-- C4 amended: the ratio never exceeds 1, and it lies in [0, 1] whenever the
summed team amounts are non-negative (with no lower clamp for negative sums). -/
theorem C4_ratio_range_amended (config : ThermometerConfig) :
    progressPercent config / 100 ≤ 1 ∧
    (0 ≤ totalRaised config →
      0 ≤ progressPercent config / 100 ∧ progressPercent config / 100 ≤ 1) := by
  have hle := progressPercent_le_100 config
  refine ⟨by linarith, fun hs => ⟨?_, by linarith⟩⟩
  unfold progressPercent
  split
  · next hg =>
    have : (0 : ℚ) ≤ totalRaised config / config.goal * 100 := by positivity
    have h2 : (0 : ℚ) ≤ min (totalRaised config / config.goal * 100) 100 :=
      le_min this (by norm_num)
    linarith
  · norm_num

/-- Witness for C4 amended at a concrete configuration. -/
theorem C4_ratio_range_amended_witness :
    0 ≤ progressPercent cfgHalf / 100 ∧ progressPercent cfgHalf / 100 ≤ 1 :=
  (C4_ratio_range_amended cfgHalf).2 (by norm_num [totalRaised, cfgHalf])


/-- C5 fails as stated for every positive width: at width 3 the canvas height
is the truncated value 3, not 3 * 1.2 = 3.6. -/
theorem C5_height_counterexample :
    canvasHeight 3 = 3 ∧ ((canvasHeight 3 : ℕ) : ℚ) ≠ (3 : ℚ) * 1.2 := by
  have h : canvasHeight 3 = 3 := by
    norm_num [canvasHeight, rustAsU32]
    rfl
  exact ⟨h, by rw [h]; norm_num⟩

/-- C5 amended: the canvas height is `width * 1.2` truncated to an integer
(exact whenever the width is divisible by 5), and the thermometer bounding box
is `x = width*0.10`, `y = height*0.15`, `w = width*0.35`, `h = height*0.60`. -/
theorem C5_canvas_box_amended (w : ℕ) (_hw : 0 < w) (hb : w ≤ 3 * 10 ^ 9) :
    (canvasHeight w : ℤ) = ⌊(w : ℚ) * 1.2⌋ ∧
    (5 ∣ w → ((canvasHeight w : ℕ) : ℚ) = (w : ℚ) * 1.2) ∧
    thermometerX w = (w : ℚ) * 0.1 ∧
    thermometerY w = (canvasHeight w : ℚ) * 0.15 ∧
    thermometerWidth w = (w : ℚ) * 0.35 ∧
    thermometerHeight w = (canvasHeight w : ℚ) * 0.6 ∧
    (∀ config : ThermometerConfig,
      (generate_thermometer_svg config w).height = canvasHeight w) :=
  ⟨canvasHeight_int w hb, fun h5 => canvasHeight_exact w h5 hb, rfl, rfl, rfl, rfl,
    fun _ => rfl⟩

/-- Witness for C5 amended: width 800 gives height 960 and bounding box
x = 80, y = 144, w = 280, h = 576. -/
theorem C5_canvas_box_amended_witness :
    canvasHeight 800 = 960 ∧ thermometerX 800 = 80 ∧ thermometerY 800 = 144 ∧
    thermometerWidth 800 = 280 ∧ thermometerHeight 800 = 576 := by
  have h := C5_canvas_box_amended 800 (by norm_num) (by norm_num)
  have h960 : canvasHeight 800 = 960 := by
    have he := h.2.1 (by norm_num)
    have : ((canvasHeight 800 : ℕ) : ℚ) = ((960 : ℕ) : ℚ) := by rw [he]; norm_num
    exact_mod_cast this
  refine ⟨h960, h.2.2.1.trans (by norm_num), ?_, h.2.2.2.2.1.trans (by norm_num), ?_⟩
  · rw [h.2.2.2.1, h960]; norm_num
  · rw [h.2.2.2.2.2.1, h960]; norm_num

/-- C3 fails as stated: `svg_to_png` truncates `size * scale` with `as u32`
rather than rounding; an intrinsic width of 10 at scale 0.19 gives 1 pixel,
not round(1.9) = 2. -/
theorem C3_dims_counterexample :
    (svgToPngDims 10 10 0.19).1 = 1 ∧ (rustRound ((10 : ℚ) * 0.19)).toNat = 2 := by
  constructor
  · show rustAsU32 ((10 : ℚ) * 0.19) = 1
    norm_num [rustAsU32]
  · norm_num [rustRound]
    rfl

/-- C3 amended: the bitmap dimensions are the floors (truncation) of
`intrinsicWidth * scale` and `intrinsicHeight * scale`. -/
theorem C3_dims_amended (w h s : ℚ) (hw : 0 ≤ w * s) (hh : 0 ≤ h * s)
    (hw2 : w * s ≤ 2 ^ 32 - 1) (hh2 : h * s ≤ 2 ^ 32 - 1) :
    ((svgToPngDims w h s).1 : ℤ) = ⌊w * s⌋ ∧
    ((svgToPngDims w h s).2 : ℤ) = ⌊h * s⌋ :=
  ⟨rustAsU32_of_bounds _ hw hw2, rustAsU32_of_bounds _ hh hh2⟩

/-- Witness for C3 amended: the 800x960 scene at scale 2 gives 1600x1920. -/
theorem C3_dims_amended_witness :
    ((svgToPngDims 800 960 2).1 : ℤ) = 1600 ∧
    ((svgToPngDims 800 960 2).2 : ℤ) = 1920 := by
  have h := C3_dims_amended 800 960 2 (by norm_num) (by norm_num) (by norm_num)
    (by norm_num)
  refine ⟨h.1.trans ?_, h.2.trans ?_⟩ <;> norm_num

/-- C7: in concrete scenario 1 the sum is 7500.5, the completion percent is
75.005, the home-page display value rounds to 75.01, and the fill height is
exactly `tube_height * 0.75005`. -/
theorem C7_scenario1 :
    totalRaised cfgScenario1 = 7500.5 ∧
    progressPercent cfgScenario1 = 75.005 ∧
    homeProgressPercent cfgScenario1 = 75.01 ∧
    (generate_thermometer_svg cfgScenario1 800).fill_height =
      (generate_thermometer_svg cfgScenario1 800).tube_height * 0.75005 := by
  have ht : totalRaised cfgScenario1 = 7500.5 := by
    norm_num [totalRaised, cfgScenario1]
  have hp : progressPercent cfgScenario1 = 75.005 := by
    rw [progressPercent, ht]
    norm_num [cfgScenario1]
  have hch : canvasHeight 800 = 960 := by
    norm_num [canvasHeight, rustAsU32]
    rfl
  have hth : tube_height 800 = 464 := by
    rw [tube_height, thermometerHeight, bulb_radius, thermometerWidth, hch]
    norm_num
  have hfh : fill_height cfgScenario1 800 = tube_height 800 * 0.75005 := by
    rw [fill_height, hp, hth]
    norm_num
  have hhome : homeProgressPercent cfgScenario1 = 75.01 := by
    rw [homeProgressPercent, if_pos (by norm_num [cfgScenario1] : (0:ℚ) < cfgScenario1.goal)]
    rw [ht]
    norm_num [cfgScenario1, rustRound]
  exact ⟨ht, hp, hhome, hfh⟩

/-- C8: the scene composer is total; a rendering failure is replaced by the
fixed placeholder scene and a successful rendering is returned unchanged. -/
theorem C8_render_fallback :
    (∀ e : String, renderWithFallback (Except.error e) = errorPlaceholderSvg) ∧
    (∀ s : String, renderWithFallback (Except.ok s) = s) :=
  ⟨fun _ => rfl, fun _ => rfl⟩

/-- C9: the geometry component of the composed scene is identical for the
light and dark themes; the theme only selects the static palette. -/
theorem C9_theme_noninterference (config : ThermometerConfig) (width : ℕ) :
    (composeScene Theme.light config width).1 =
      (composeScene Theme.dark config width).1 ∧
    (composeScene Theme.light config width).2 = lightPalette ∧
    (composeScene Theme.dark config width).2 = darkPalette :=
  ⟨rfl, rfl, rfl⟩


/-- C6: the layout always emits exactly six markers with levels
100, 80, 60, 40, 20, 0 in top-to-bottom order, each at
`y = tube_y + tube_height * (1 - p/100)`, with tick length
`thermometer_width * 0.25` ending 5px left of the tube, label a further 5px
left, baseline corrected down by `0.35 * font_size`, and marker font size
`width * 0.02`. -/
theorem C6_markers (config : ThermometerConfig) (w : ℕ) :
    (generate_thermometer_svg config w).percentage_markers.length = 6 ∧
    (generate_thermometer_svg config w).percentage_markers.map
        (fun m => m.percentage) = [100, 80, 60, 40, 20, 0] ∧
    (generate_thermometer_svg config w).percentage_markers.map (fun m => m.y) =
      ([100, 80, 60, 40, 20, 0] : List ℤ).map
        (fun p => tube_y w + tube_height w * (1 - (p : ℚ) / 100)) ∧
    (generate_thermometer_svg config w).percentage_markers.map
        (fun m => m.line_x2 - m.line_x1) =
      List.replicate 6 (thermometerWidth w * 0.25) ∧
    (generate_thermometer_svg config w).percentage_markers.map
        (fun m => m.line_x2) = List.replicate 6 (tube_x w - 5) ∧
    (generate_thermometer_svg config w).percentage_markers.map
        (fun m => m.line_x1 - m.text_x) = List.replicate 6 5 ∧
    (generate_thermometer_svg config w).percentage_markers.map
        (fun m => m.text_y - m.y) = List.replicate 6 (font_size w * 0.35) ∧
    (generate_thermometer_svg config w).percentage_markers.map
        (fun m => m.font_size) = List.replicate 6 ((w : ℚ) * 0.02) := by
  refine ⟨rfl, rfl, rfl, ?_, rfl, ?_, ?_, rfl⟩ <;>
    simp [generate_thermometer_svg, percentage_markers_of, marker_length,
      List.replicate, font_size]


/-- C10 amended: the fill height is clamped to be non-negative and never
exceeds the tube height, so the fill rectangle stays inside the tube; a
negative team sum yields an empty tube, and its rendered percentage is
negative exactly when the goal is positive (it is 0 when the goal is not). -/
theorem C10_fill_invariants_amended (config : ThermometerConfig) (w : ℕ)
    (_hw : 0 < w) (hw2 : w ≤ 2 ^ 32 - 1) :
    0 ≤ (generate_thermometer_svg config w).fill_height ∧
    (generate_thermometer_svg config w).fill_height ≤
      (generate_thermometer_svg config w).tube_height ∧
    (generate_thermometer_svg config w).tube_y ≤
      (generate_thermometer_svg config w).fill_y ∧
    (generate_thermometer_svg config w).fill_y ≤
      (generate_thermometer_svg config w).tube_y +
        (generate_thermometer_svg config w).tube_height ∧
    (totalRaised config < 0 →
      (generate_thermometer_svg config w).fill_height = 0) ∧
    (totalRaised config < 0 → 0 < config.goal →
      (generate_thermometer_svg config w).progress_percent < 0) := by
  have hth0 := tube_height_nonneg w hw2
  have hpp := progressPercent_le_100 config
  have h1 : 0 ≤ fill_height config w := le_max_right _ _
  have h2 : fill_height config w ≤ tube_height w := by
    unfold fill_height
    refine max_le ?_ hth0
    nlinarith
  have h5 : totalRaised config < 0 → fill_height config w = 0 := by
    intro hs
    have hpp0 : progressPercent config ≤ 0 := by
      unfold progressPercent
      split
      · next hg =>
        refine le_trans (min_le_left _ _) ?_
        have hd : totalRaised config / config.goal ≤ 0 :=
          div_nonpos_iff.mpr (Or.inr ⟨le_of_lt hs, le_of_lt hg⟩)
        nlinarith
      · exact le_refl 0
    unfold fill_height
    refine max_eq_right ?_
    nlinarith
  have h6 : totalRaised config < 0 → 0 < config.goal →
      progressPercent config < 0 := by
    intro hs hg
    unfold progressPercent
    rw [if_pos hg]
    have hd : totalRaised config / config.goal < 0 := div_neg_of_neg_of_pos hs hg
    have : totalRaised config / config.goal * 100 < 0 := by nlinarith
    exact lt_of_le_of_lt (min_le_left _ _) this
  exact ⟨h1, h2, by show tube_y w ≤ fill_y config w; unfold fill_y; linarith,
    by show fill_y config w ≤ tube_y w + tube_height w; unfold fill_y; linarith,
    h5, h6⟩

/-- Witness for C10 amended at goal 100 with a team total of -50. -/
theorem C10_fill_invariants_amended_witness :
    0 ≤ (generate_thermometer_svg cfgNegGoal100 800).fill_height ∧
    (generate_thermometer_svg cfgNegGoal100 800).fill_height = 0 ∧
    (generate_thermometer_svg cfgNegGoal100 800).progress_percent < 0 := by
  have h := C10_fill_invariants_amended cfgNegGoal100 800 (by norm_num) (by norm_num)
  exact ⟨h.1, h.2.2.2.2.1 (by norm_num [totalRaised, cfgNegGoal100]),
    h.2.2.2.2.2 (by norm_num [totalRaised, cfgNegGoal100])
      (by norm_num [cfgNegGoal100])⟩

/-- C10 fails as literally stated: with goal 0 and a negative team sum the
fill height is 0 but the rendered percentage is 0, not negative. -/
theorem C10_counterexample :
    totalRaised cfgNegZeroGoal < 0 ∧
    (generate_thermometer_svg cfgNegZeroGoal 800).fill_height = 0 ∧
    ¬ (generate_thermometer_svg cfgNegZeroGoal 800).progress_percent < 0 := by
  refine ⟨by norm_num [totalRaised, cfgNegZeroGoal], ?_, ?_⟩
  · show fill_height cfgNegZeroGoal 800 = 0
    rw [fill_height, progressPercent]
    norm_num [cfgNegZeroGoal]
  · show ¬ progressPercent cfgNegZeroGoal < 0
    rw [progressPercent]
    norm_num [cfgNegZeroGoal]


/-- C2 fails as stated: the fill rectangle width carries a fixed 5px inset,
so doubling the width from 800 to 1600 gives fill width 191, not 2 x 93 = 186. -/
theorem C2_scaling_counterexample :
    (generate_thermometer_svg cfgEmpty 1600).fill_width = 191 ∧
    (generate_thermometer_svg cfgEmpty 800).fill_width = 93 ∧
    (generate_thermometer_svg cfgEmpty 1600).fill_width ≠
      2 * (generate_thermometer_svg cfgEmpty 800).fill_width := by
  refine ⟨?_, ?_, ?_⟩ <;>
    norm_num [generate_thermometer_svg, tube_width, thermometerWidth]

/-- C2 amended: all dimensions defined as pure proportions of the width (and
of the derived canvas height) scale by `k`, for widths divisible by 5 so that
the truncated canvas height itself is exact; the dimensions built from fixed
pixel offsets (fill x and width, bulb fill radius, marker x positions) do not
scale and are excluded. -/
theorem C2_scaling_amended (config : ThermometerConfig) (w k : ℕ)
    (h5 : 5 ∣ w) (hk : 0 < k) (hb : k * w ≤ 3 * 10 ^ 9) :
    (generate_thermometer_svg config (k * w)).title_x =
      k * (generate_thermometer_svg config w).title_x ∧
    (generate_thermometer_svg config (k * w)).title_y =
      k * (generate_thermometer_svg config w).title_y ∧
    (generate_thermometer_svg config (k * w)).title_font_size =
      k * (generate_thermometer_svg config w).title_font_size ∧
    (generate_thermometer_svg config (k * w)).tube_x =
      k * (generate_thermometer_svg config w).tube_x ∧
    (generate_thermometer_svg config (k * w)).tube_y =
      k * (generate_thermometer_svg config w).tube_y ∧
    (generate_thermometer_svg config (k * w)).tube_width =
      k * (generate_thermometer_svg config w).tube_width ∧
    (generate_thermometer_svg config (k * w)).tube_height =
      k * (generate_thermometer_svg config w).tube_height ∧
    (generate_thermometer_svg config (k * w)).fill_height =
      k * (generate_thermometer_svg config w).fill_height ∧
    (generate_thermometer_svg config (k * w)).fill_y =
      k * (generate_thermometer_svg config w).fill_y ∧
    (generate_thermometer_svg config (k * w)).bulb_center_x =
      k * (generate_thermometer_svg config w).bulb_center_x ∧
    (generate_thermometer_svg config (k * w)).bulb_center_y =
      k * (generate_thermometer_svg config w).bulb_center_y ∧
    (generate_thermometer_svg config (k * w)).bulb_radius =
      k * (generate_thermometer_svg config w).bulb_radius ∧
    (generate_thermometer_svg config (k * w)).text_x =
      k * (generate_thermometer_svg config w).text_x ∧
    (generate_thermometer_svg config (k * w)).achieved_y =
      k * (generate_thermometer_svg config w).achieved_y ∧
    (generate_thermometer_svg config (k * w)).goal_y =
      k * (generate_thermometer_svg config w).goal_y ∧
    (generate_thermometer_svg config (k * w)).percent_y =
      k * (generate_thermometer_svg config w).percent_y ∧
    (generate_thermometer_svg config (k * w)).amount_font_size =
      k * (generate_thermometer_svg config w).amount_font_size ∧
    (generate_thermometer_svg config (k * w)).label_font_size =
      k * (generate_thermometer_svg config w).label_font_size ∧
    (generate_thermometer_svg config (k * w)).percent_font_size =
      k * (generate_thermometer_svg config w).percent_font_size ∧
    (generate_thermometer_svg config (k * w)).percent_label_font_size =
      k * (generate_thermometer_svg config w).percent_label_font_size ∧
    marker_length (k * w) = k * marker_length w ∧
    font_size (k * w) = k * font_size w ∧
    (generate_thermometer_svg config (k * w)).percentage_markers.map
        (fun m => m.y) =
      (generate_thermometer_svg config w).percentage_markers.map
        (fun m => (k : ℚ) * m.y) ∧
    (generate_thermometer_svg config (k * w)).percentage_markers.map
        (fun m => m.font_size) =
      (generate_thermometer_svg config w).percentage_markers.map
        (fun m => (k : ℚ) * m.font_size) := by
  have hw5 : w ≤ 3 * 10 ^ 9 := le_trans (Nat.le_mul_of_pos_left w hk) hb
  have h5k : 5 ∣ k * w := Dvd.dvd.mul_left h5 k
  have hH : ((canvasHeight (k * w) : ℕ) : ℚ) = k * (canvasHeight w : ℚ) := by
    rw [canvasHeight_exact w h5 hw5, canvasHeight_exact (k * w) h5k hb]
    push_cast
    ring
  have hkw : ((k * w : ℕ) : ℚ) = (k : ℚ) * (w : ℚ) := by push_cast; ring
  have hTW : thermometerWidth (k * w) = k * thermometerWidth w := by
    unfold thermometerWidth; rw [hkw]; ring
  have hTX : thermometerX (k * w) = k * thermometerX w := by
    unfold thermometerX; rw [hkw]; ring
  have hTH : thermometerHeight (k * w) = k * thermometerHeight w := by
    unfold thermometerHeight; rw [hH]; ring
  have hTY : thermometerY (k * w) = k * thermometerY w := by
    unfold thermometerY; rw [hH]; ring
  have htw : tube_width (k * w) = k * tube_width w := by
    unfold tube_width; rw [hTW]; ring
  have hbr : bulb_radius (k * w) = k * bulb_radius w := by
    unfold bulb_radius; rw [hTW]; ring
  have hth : tube_height (k * w) = k * tube_height w := by
    unfold tube_height; rw [hTH, hbr]; ring
  have htx : tube_x (k * w) = k * tube_x w := by
    unfold tube_x; rw [hTX, hTW, htw]; ring
  have hty : tube_y (k * w) = k * tube_y w := by
    unfold tube_y; rw [hTY]
  have hbcx : bulb_center_x (k * w) = k * bulb_center_x w := by
    unfold bulb_center_x; rw [hTX, hTW]; ring
  have hbcy : bulb_center_y (k * w) = k * bulb_center_y w := by
    unfold bulb_center_y; rw [hty, hth, hbr]; ring
  have hk0 : (0 : ℚ) ≤ (k : ℚ) := by positivity
  have hfh : fill_height config (k * w) = k * fill_height config w := by
    unfold fill_height
    have hx : tube_height (k * w) * progressPercent config / 100 =
        (k : ℚ) * (tube_height w * progressPercent config / 100) := by
      rw [hth]; ring
    rcases le_total (tube_height w * progressPercent config / 100) 0 with hc | hc
    · rw [max_eq_right hc,
        max_eq_right (by rw [hx]; exact mul_nonpos_of_nonneg_of_nonpos hk0 hc),
        mul_zero]
    · rw [max_eq_left hc,
        max_eq_left (by rw [hx]; exact mul_nonneg hk0 hc), hx]
  have hfy : fill_y config (k * w) = k * fill_y config w := by
    unfold fill_y; rw [hty, hth, hfh]; ring
  have hml : marker_length (k * w) = k * marker_length w := by
    unfold marker_length; rw [hTW]; ring
  have hfs : font_size (k * w) = k * font_size w := by
    unfold font_size; rw [hkw]; ring
  refine ⟨by simp only [generate_thermometer_svg]; rw [hkw]; ring,
    by simp only [generate_thermometer_svg]; rw [hH]; ring,
    by simp only [generate_thermometer_svg]; rw [hkw]; ring,
    htx, hty, htw, hth, hfh, hfy, hbcx, hbcy, hbr,
    by simp only [generate_thermometer_svg]; rw [hkw]; ring,
    by simp only [generate_thermometer_svg]; rw [hH]; ring,
    by simp only [generate_thermometer_svg]; rw [hH]; ring,
    by simp only [generate_thermometer_svg]; rw [hH]; ring,
    by simp only [generate_thermometer_svg]; rw [hkw]; ring,
    by simp only [generate_thermometer_svg]; rw [hkw]; ring,
    by simp only [generate_thermometer_svg]; rw [hkw]; ring,
    by simp only [generate_thermometer_svg]; rw [hkw]; ring,
    hml, hfs, ?_, ?_⟩
  · simp only [generate_thermometer_svg, percentage_markers_of, List.map_map,
      List.map_cons, List.map_nil, Function.comp_apply]
    norm_num [hty, hth]
    and_intros <;> ring
  · simp only [generate_thermometer_svg, percentage_markers_of, List.map_map,
      List.map_cons, List.map_nil, Function.comp_apply]
    norm_num [hfs]

/-- Witness for C2 amended at width 5, factor 2. -/
theorem C2_scaling_amended_witness :
    (generate_thermometer_svg cfgEmpty (2 * 5)).tube_width =
      (2 : ℕ) * (generate_thermometer_svg cfgEmpty 5).tube_width :=
  (C2_scaling_amended cfgEmpty 5 2 (by norm_num) (by norm_num) (by norm_num)).2.2.2.2.2.1

end Thermo
